import Mathlib

/-!
Verification of the SPI master-mode driver (`src/spi.rs`) of the
stm32h7xx-hal repository, against its natural-language specification.

Shallow embedding conventions:
* Hardware register writes performed by the driver are recorded as explicit
  `RegWrite` events, in program order.
* A Rust panic (`panic!`, `unreachable!`, a division by zero, or an
  arithmetic over/underflow in a debug build) is divergence, not a returned
  value: it is modelled by the `Abort` type.  `Except Abort _` /
  `Option Abort` results mark the computation as diverging with the given
  panic; they do NOT model a Rust `Result` error return (the constructor
  `Spi::$spiX` has return type `Self`, with no error channel).
* Rust `f32` values (`Config::cs_delay`) are modelled as exact rationals
  `ℚ`; the `f32` multiplication and the truncating `as u32` cast are
  modelled as exact rational multiplication followed by `Int.floor` and
  `Int.toNat` (the `as` cast saturates negative values to `0`).
* Machine integers (`u8`, `u16`, `u32`) are modelled as `ℕ`; the two
  places where an overflow boundary is reachable and relevant are modelled
  explicitly: the `u8` subtraction `config.frame_size - 1` (`dsizeField`,
  underflow at `frame_size = 0`) and the `u32` addition `delay + 1` in the
  cycle-delay block (`u32CheckedAdd1`, overflow when the saturating
  `f32 as u32` cast produced `u32::MAX`).  Both diverge in a debug build;
  a release build wraps instead, which for the cycle delay programs 0
  cycles — either way the computation does not complete as specified, so
  the embedding marks both as divergence.
-/

namespace Spi

/-- Clock phase of an SPI mode, mirroring `embedded_hal::spi::Phase`. -/
inductive Phase
  | captureOnFirstTransition
  | captureOnSecondTransition
deriving DecidableEq

/-- Clock polarity of an SPI mode, mirroring `embedded_hal::spi::Polarity`. -/
inductive Polarity
  | idleLow
  | idleHigh
deriving DecidableEq

/-- SPI mode: a polarity/phase pair, mirroring `embedded_hal::spi::Mode`. -/
structure Mode where
  polarity : Polarity
  phase : Phase
deriving DecidableEq

/-- Mode 0 (idle low, capture on first transition), as re-exported by `spi.rs`. -/
def MODE_0 : Mode := ⟨Polarity.idleLow, Phase.captureOnFirstTransition⟩

/-- Communication direction, mirroring `enum CommunicationMode` in `spi.rs`. -/
inductive CommunicationMode
  | FullDuplex
  | Transmitter
  | Receiver
  | HalfDuplex
deriving DecidableEq

/-- Numeric discriminant of `CommunicationMode` (`as u8` in the source). -/
def CommunicationMode.toBits : CommunicationMode → ℕ
  | .FullDuplex => 0
  | .Transmitter => 1
  | .Receiver => 2
  | .HalfDuplex => 3

/-- SPI configuration, mirroring `struct Config` in `spi.rs`.
`cs_delay` is an `f32` in the source, modelled as an exact rational;
`frame_size` is a `u8`; `t_size` is a `u16`. -/
structure Config where
  mode : Mode
  swap_miso_mosi : Bool
  cs_delay : ℚ
  frame_size : ℕ
  managed_cs : Bool
  communication_mode : CommunicationMode
  t_size : ℕ
deriving DecidableEq

/-- Default configuration, mirroring `Config::new(mode)` in `spi.rs`. -/
def Config.new (mode : Mode) : Config :=
  { mode := mode
    swap_miso_mosi := false
    cs_delay := 0
    frame_size := 8
    managed_cs := false
    communication_mode := CommunicationMode.FullDuplex
    t_size := 0 }

/-- Master baud-rate divisor codes, mirroring `MBR_A` of the `cfg1` register. -/
inductive MBR
  | DIV2
  | DIV4
  | DIV8
  | DIV16
  | DIV32
  | DIV64
  | DIV128
  | DIV256
deriving DecidableEq

/-- Division factor denoted by each baud-rate divisor code. -/
def MBR.divisor : MBR → ℕ
  | .DIV2 => 2
  | .DIV4 => 4
  | .DIV8 => 8
  | .DIV16 => 16
  | .DIV32 => 32
  | .DIV64 => 64
  | .DIV128 => 128
  | .DIV256 => 256

/-- The fixed ladder of available division factors. -/
def mbrLadder : List ℕ := [2, 4, 8, 16, 32, 64, 128, 256]

/-- Divergence (Rust panic) reasons reachable in `Spi::$spiX`.
Each constructor marks a place where the Rust code panics; a result
carrying an `Abort` models a diverging (panicking) execution. -/
inductive Abort
  | unreachableState
  | kernelClockNotRunning
  | divideByZero
  | u8Underflow
  | u32Overflow
deriving DecidableEq

/-- Arm selection of the `match spi_ker_ck / spi_freq` expression in
`Spi::$spiX` (`spi.rs` lines 414-424), as a function of the computed
quotient: one arm per source range pattern, the `0` arm being the source's
`unreachable!()` (a panic). -/
def mbrSelect (r : ℕ) : Except Abort MBR :=
  if r = 0 then Except.error Abort.unreachableState
  else if r ≤ 2 then Except.ok MBR.DIV2
  else if r ≤ 5 then Except.ok MBR.DIV4
  else if r ≤ 11 then Except.ok MBR.DIV8
  else if r ≤ 23 then Except.ok MBR.DIV16
  else if r ≤ 47 then Except.ok MBR.DIV32
  else if r ≤ 95 then Except.ok MBR.DIV64
  else if r ≤ 191 then Except.ok MBR.DIV128
  else Except.ok MBR.DIV256

/-- Baud-rate divisor selection, mirroring `spi.rs` lines 414-424: the
quotient `spi_ker_ck / spi_freq` is matched by `mbrSelect`.  Rust natural
division by zero panics, hence the `freq = 0` guard. -/
def computeMbr (ck freq : ℕ) : Except Abort MBR :=
  if freq = 0 then Except.error Abort.divideByZero
  else mbrSelect (ck / freq)

/-- Data-size field computation `config.frame_size - 1` (`spi.rs` line 429).
The subtraction is performed on a `u8` with no validation; at
`frame_size = 0` it underflows (diverging in a debug build), modelled as
an `Abort`. -/
def dsizeField (frame_size : ℕ) : Except Abort ℕ :=
  if frame_size = 0 then Except.error Abort.u8Underflow
  else Except.ok (frame_size - 1)

/-- Largest `u32` value (`2^32 - 1`): the upper saturation bound of Rust's
`f32 as u32` cast and the overflow bound of `u32` addition. -/
def u32Max : ℕ := 4294967295

/-- Checked `u32` increment `delay + 1` (`spi.rs` line 446): at
`delay = u32::MAX` — reachable because the preceding `f32 as u32` cast
saturates there — the addition overflows: a debug build panics
(divergence, `Abort.u32Overflow`); a release build would wrap to 0. -/
def u32CheckedAdd1 (n : ℕ) : Except Abort ℕ :=
  if n + 1 ≤ u32Max then Except.ok (n + 1) else Except.error Abort.u32Overflow

/-- Chip-select to transaction cycle-delay computation, mirroring the
`cycle_delay` block of `Spi::$spiX` (`spi.rs` lines 439-454).  The `f32`
product `config.cs_delay * spi_freq as f32` is modelled as exact rational
multiplication; the `as u32` cast truncates toward zero, saturating
negative values at zero (`Int.toNat ∘ Int.floor`) and values at or above
`u32::MAX` at `u32Max`; the conditional `delay + 1` is the checked `u32`
increment; finally the result is clamped at `0xF`. -/
def cycleDelay (cs_delay : ℚ) (spi_freq : ℕ) : Except Abort ℕ :=
  let delay : ℕ := min ((⌊cs_delay * (spi_freq : ℚ)⌋).toNat) u32Max
  match (if 0 < cs_delay then u32CheckedAdd1 delay else Except.ok delay) with
  | Except.error a => Except.error a
  | Except.ok d2 => Except.ok (if d2 > 15 then 15 else d2)

/-- Value written to the `cfg2` register by the main configuration write of
`Spi::$spiX` (`spi.rs` lines 461-480), one field per bit/field written. -/
structure Cfg2Write where
  cpha : Bool
  cpol : Bool
  master : Bool
  lsbfrst : Bool
  ssoe : Bool
  ssm : Bool
  mssi : ℕ
  ioswp : Bool
  comm : ℕ
deriving DecidableEq

/-- One hardware register write performed by `Spi::$spiX`, in program order. -/
inductive RegWrite
  | apbenrEnable
  | cfg2SsoeDisabled
  | cfg1 (mbr : MBR) (dsize : ℕ)
  | cr2Tsize (tsize : ℕ)
  | cr1Ssi
  | cfg2 (w : Cfg2Write)
  | cr1SsiSpe
deriving DecidableEq

/-- Peripheral initialization `Spi::$spiX` (`spi.rs` lines 390-486),
as the ordered list of register writes it performs, paired with `none` on
a completed (returning) run or `some a` when the run diverges with panic
`a` after the listed writes.  `kernelClk` is the result of the
`Self::kernel_clk(ccdr)` query (`None` = selected kernel clock source
disabled, on which the source executes
`panic!("$SPIX kernel clock not running!")`).  The clock-enable and
SS-output-disable writes precede every panic site; the `cfg1` modify is
not performed when the `frame_size - 1` underflow panics inside its
closure; the `cfg1`, `cr2` and first `cr1` writes precede the cycle-delay
block and are therefore recorded when that block's `u32` increment
overflows. -/
def spiInit (config : Config) (freq : ℕ) (kernelClk : Option ℕ) :
    List RegWrite × Option Abort :=
  let pre := [RegWrite.apbenrEnable, RegWrite.cfg2SsoeDisabled]
  match kernelClk with
  | none => (pre, some Abort.kernelClockNotRunning)
  | some ck =>
    match computeMbr ck freq with
    | Except.error a => (pre, some a)
    | Except.ok mbr =>
      match dsizeField config.frame_size with
      | Except.error a => (pre, some a)
      | Except.ok ds =>
        let mid := pre ++
          [RegWrite.cfg1 mbr ds,
           RegWrite.cr2Tsize config.t_size,
           RegWrite.cr1Ssi]
        match cycleDelay config.cs_delay freq with
        | Except.error a => (mid, some a)
        | Except.ok cd =>
          (mid ++
            [RegWrite.cfg2
               ⟨config.mode.phase == Phase.captureOnSecondTransition,
                config.mode.polarity == Polarity.idleHigh,
                true,
                false,
                config.managed_cs == true,
                config.managed_cs == false,
                cd,
                config.swap_miso_mosi == true,
                config.communication_mode.toBits⟩,
             RegWrite.cr1SsiSpe],
           none)

/-- Pin-checked constructor `SpiExt::spi` (`spi.rs` lines 568-579): takes a
pin tuple (whose validity is a compile-time capability constraint with no
runtime content, modelled as an arbitrary type) and delegates to
`Spi::$spiX`. -/
def SpiExt.spi {PINS : Type} (_pins : PINS) (config : Config) (freq : ℕ)
    (kernelClk : Option ℕ) : List RegWrite × Option Abort :=
  spiInit config freq kernelClk

/-- Unchecked constructor `SpiExt::spi_unchecked` (`spi.rs` lines 581-590):
delegates to `Spi::$spiX` with no pin argument. -/
def SpiExt.spi_unchecked (config : Config) (freq : ℕ)
    (kernelClk : Option ℕ) : List RegWrite × Option Abort :=
  spiInit config freq kernelClk

/-- SPI transfer error, mirroring `enum Error` in `spi.rs` (the hidden
`_Extensible` variant is never constructed and is omitted). -/
inductive Error
  | Overrun
  | ModeFault
  | Crc
deriving DecidableEq

/-- Outcome of a non-blocking operation: `nb::Result<T, Error>`. -/
inductive NbResult (T : Type)
  | ok (t : T)
  | err (e : Error)
  | wouldBlock
deriving DecidableEq

/-- Status-register flags consumed by the transfer engine, each field being
the boolean outcome of the corresponding `sr` accessor in the source:
`ovr().is_overrun()`, `modf().is_fault()`, `crce().is_error()`,
`rxp().is_not_empty()` (receive data available), `txp().is_not_full()`
(transmit space available). -/
structure StatusFlags where
  ovr : Bool
  modf : Bool
  crce : Bool
  rxp : Bool
  txp : Bool
deriving DecidableEq

/-- Count of each peripheral access performed by one `read`/`send` call. -/
structure Effects where
  srReads : ℕ
  rxdrReads : ℕ
  txdrWrites : ℕ
  cstartWrites : ℕ
deriving DecidableEq

/-- Non-blocking receive `FullDuplex::read` (`spi.rs` lines 596-617): one
status-register read, then the error-priority chain, then data
availability.  `rxdr` is the word a volatile read of the receive data
register would yield.  The returned `Effects` count every peripheral
access the call performs. -/
def fullDuplexRead {T : Type} (sr : StatusFlags) (rxdr : T) :
    NbResult T × Effects :=
  if sr.ovr then (NbResult.err Error.Overrun, ⟨1, 0, 0, 0⟩)
  else if sr.modf then (NbResult.err Error.ModeFault, ⟨1, 0, 0, 0⟩)
  else if sr.crce then (NbResult.err Error.Crc, ⟨1, 0, 0, 0⟩)
  else if sr.rxp then (NbResult.ok rxdr, ⟨1, 1, 0, 0⟩)
  else (NbResult.wouldBlock, ⟨1, 0, 0, 0⟩)

/-- Non-blocking transmit `FullDuplex::send` (`spi.rs` lines 619-644): one
status-register read, the same error-priority chain, then transmit-space
availability; on acceptance the word is written to `txdr` and one
`CSTART` strobe is written to `cr1`. -/
def fullDuplexSend {T : Type} (sr : StatusFlags) (_word : T) :
    NbResult Unit × Effects :=
  if sr.ovr then (NbResult.err Error.Overrun, ⟨1, 0, 0, 0⟩)
  else if sr.modf then (NbResult.err Error.ModeFault, ⟨1, 0, 0, 0⟩)
  else if sr.crce then (NbResult.err Error.Crc, ⟨1, 0, 0, 0⟩)
  else if sr.txp then (NbResult.ok (), ⟨1, 0, 1, 1⟩)
  else (NbResult.wouldBlock, ⟨1, 0, 0, 0⟩)

/-- Interrupt events, mirroring `enum Event` in `spi.rs`. -/
inductive Event
  | Rxp
  | Txp
  | Error
  | Eot
deriving DecidableEq

/-- Interrupt-enable register (`ier`) state: one flag per interrupt-enable
bit touched by `listen`/`unlisten` (`true` = not masked / enabled). -/
structure Ier where
  rxpie : Bool
  txpie : Bool
  eotie : Bool
  udrie : Bool
  ovrie : Bool
  crceie : Bool
  modfie : Bool
deriving DecidableEq

/-- Interrupt enable `Spi::listen` (`spi.rs` lines 492-510): the `Error`
event sets the underrun, overrun, CRC-error and mode-fault enable flags in
one `ier` modify. -/
def listen (event : Event) (i : Ier) : Ier :=
  match event with
  | Event.Rxp => { i with rxpie := true }
  | Event.Txp => { i with txpie := true }
  | Event.Error =>
    { i with udrie := true, ovrie := true, crceie := true, modfie := true }
  | Event.Eot => { i with eotie := true }

/-- Interrupt disable `Spi::unlisten` (`spi.rs` lines 516-534): the `Error`
event clears the same four enable flags in one `ier` modify. -/
def unlisten (event : Event) (i : Ier) : Ier :=
  match event with
  | Event.Rxp => { i with rxpie := false }
  | Event.Txp => { i with txpie := false }
  | Event.Error =>
    { i with udrie := false, ovrie := false, crceie := false, modfie := false }
  | Event.Eot => { i with eotie := false }

/-- One interrupt-control operation: a `listen` or an `unlisten` call. -/
inductive IerOp
  | listen (event : Event)
  | unlisten (event : Event)
deriving DecidableEq

/-- Apply one interrupt-control operation to the `ier` state. -/
def IerOp.apply (op : IerOp) (i : Ier) : Ier :=
  match op with
  | IerOp.listen e => Spi.listen e i
  | IerOp.unlisten e => Spi.unlisten e i

/-- Apply a sequence of `listen`/`unlisten` calls, in order. -/
def applyOps (ops : List IerOp) (i : Ier) : Ier :=
  match ops with
  | [] => i
  | op :: rest => applyOps rest (op.apply i)

/-- The four error-group enable flags (underrun, overrun, CRC error, mode
fault) are all equal: none or all of the group is enabled. -/
def errorGroupUniform (i : Ier) : Prop :=
  i.udrie = i.ovrie ∧ i.ovrie = i.crceie ∧ i.crceie = i.modfie

instance (i : Ier) : Decidable (errorGroupUniform i) := by
  unfold errorGroupUniform
  infer_instance

/-- Helper for C1: full characterization of the source's ladder match as a
function of the quotient `r`: for `r ≥ 1` the match returns a code, the code
agrees with each claimed ladder range, and the chosen division factor is the
least ladder value `d` with `r < 3d/2` (for `r ≤ 383`; beyond that the
ladder is exhausted and `256` is returned). -/
theorem mbrSelect_spec (r : ℕ) (h1 : 1 ≤ r) :
    ∃ m : MBR, mbrSelect r = Except.ok m ∧
      (r ≤ 2 → m = MBR.DIV2) ∧
      (3 ≤ r ∧ r ≤ 5 → m = MBR.DIV4) ∧
      (6 ≤ r ∧ r ≤ 11 → m = MBR.DIV8) ∧
      (12 ≤ r ∧ r ≤ 23 → m = MBR.DIV16) ∧
      (24 ≤ r ∧ r ≤ 47 → m = MBR.DIV32) ∧
      (48 ≤ r ∧ r ≤ 95 → m = MBR.DIV64) ∧
      (96 ≤ r ∧ r ≤ 191 → m = MBR.DIV128) ∧
      (192 ≤ r → m = MBR.DIV256) ∧
      (r ≤ 383 → 2 * r < 3 * m.divisor) ∧
      (∀ d ∈ mbrLadder, 2 * r < 3 * d → m.divisor ≤ d) := by
  unfold mbrSelect
  split_ifs with h0 h2 h5 h11 h23 h47 h95 h191 <;>
    first
      | omega
      | (refine ⟨_, rfl, ?_, ?_, ?_, ?_, ?_, ?_, ?_, ?_, ?_, ?_⟩ <;>
          first
            | (intro d hd hlt; fin_cases hd <;> simp only [MBR.divisor] at hlt ⊢ <;>
                omega)
            | (intro h; first | rfl | omega)
            | (intro h; simp only [MBR.divisor]; omega))

/-- C1 (amended): for kernel frequency `F` and requested frequency `R` with
`0 < R ≤ F`, initialization computes the quotient `F / R` by integer
division and maps it through the ladder `{1-2 → 2, 3-5 → 4, 6-11 → 8,
12-23 → 16, 24-47 → 32, 48-95 → 64, 96-191 → 128, ≥192 → 256}` (so quotient
2 yields divisor 2, 191 yields 128, 192 yields 256).  The chosen divisor is
NOT the smallest ladder value with `F / divisor ≤ R` (see the
counterexample `spi_mbr_not_conservative`): what holds is that it is the
smallest ladder value `d` with `F / R < 3d/2`, the ladder-exhausted cap
`256` applying beyond quotient 383. -/
theorem spi_mbr_ladder (F R : ℕ) (hR : 0 < R) (hRF : R ≤ F) :
    ∃ m : MBR, computeMbr F R = Except.ok m ∧
      (F / R ≤ 2 → m = MBR.DIV2) ∧
      (3 ≤ F / R ∧ F / R ≤ 5 → m = MBR.DIV4) ∧
      (6 ≤ F / R ∧ F / R ≤ 11 → m = MBR.DIV8) ∧
      (12 ≤ F / R ∧ F / R ≤ 23 → m = MBR.DIV16) ∧
      (24 ≤ F / R ∧ F / R ≤ 47 → m = MBR.DIV32) ∧
      (48 ≤ F / R ∧ F / R ≤ 95 → m = MBR.DIV64) ∧
      (96 ≤ F / R ∧ F / R ≤ 191 → m = MBR.DIV128) ∧
      (192 ≤ F / R → m = MBR.DIV256) ∧
      (F / R ≤ 383 → 2 * (F / R) < 3 * m.divisor) ∧
      (∀ d ∈ mbrLadder, 2 * (F / R) < 3 * d → m.divisor ≤ d) := by
  have hR0 : R ≠ 0 := by omega
  have hr1 : 1 ≤ F / R := (Nat.one_le_div_iff hR).mpr hRF
  have hcm : computeMbr F R = mbrSelect (F / R) := by
    unfold computeMbr
    rw [if_neg hR0]
  rw [hcm]
  exact mbrSelect_spec (F / R) hr1

/-- Witness for C1: the ladder characterization instantiated at
`F = 100`, `R = 1` (quotient 100, divisor code 128). -/
theorem spi_mbr_ladder_witness :
    ∃ m : MBR, computeMbr 100 1 = Except.ok m ∧
      (100 / 1 ≤ 2 → m = MBR.DIV2) ∧
      (3 ≤ 100 / 1 ∧ 100 / 1 ≤ 5 → m = MBR.DIV4) ∧
      (6 ≤ 100 / 1 ∧ 100 / 1 ≤ 11 → m = MBR.DIV8) ∧
      (12 ≤ 100 / 1 ∧ 100 / 1 ≤ 23 → m = MBR.DIV16) ∧
      (24 ≤ 100 / 1 ∧ 100 / 1 ≤ 47 → m = MBR.DIV32) ∧
      (48 ≤ 100 / 1 ∧ 100 / 1 ≤ 95 → m = MBR.DIV64) ∧
      (96 ≤ 100 / 1 ∧ 100 / 1 ≤ 191 → m = MBR.DIV128) ∧
      (192 ≤ 100 / 1 → m = MBR.DIV256) ∧
      (100 / 1 ≤ 383 → 2 * (100 / 1) < 3 * m.divisor) ∧
      (∀ d ∈ mbrLadder, 2 * (100 / 1) < 3 * d → m.divisor ≤ d) :=
  spi_mbr_ladder 100 1 (by decide) (by decide)

/-- Counterexample to C1 as stated: at kernel frequency `F = 5` and request
`R = 2` the quotient is 2, the code selects divisor 2, and the actual rate
`5 / 2 = 2.5` exceeds the requested `R = 2`; the smallest ladder value `d`
with `F / d ≤ R` is 4, not the chosen 2.  So the chosen divisor neither
satisfies `F / divisor ≤ R` nor is the smallest ladder value doing so. -/
theorem spi_mbr_not_conservative :
    computeMbr 5 2 = Except.ok MBR.DIV2 ∧
      ¬ ((5 : ℚ) / (MBR.DIV2.divisor : ℚ) ≤ 2) ∧
      4 ∈ mbrLadder ∧ (5 : ℚ) / ((4 : ℕ) : ℚ) ≤ 2 ∧ MBR.DIV2.divisor ≠ 4 :=
  ⟨rfl, by norm_num [MBR.divisor], by decide, by norm_num, by decide⟩

/-- C2: at kernel frequency 1 MHz and requested frequency 2 MHz (so the
integer quotient is 0), the `0` match arm executes `unreachable!()` and the
whole initialization diverges by panic (`Abort.unreachableState`) — the
reachable quotient-0 case IS treated as an unreachable state, contradicting
the claim that it fails with an explicit, recoverable error result. -/
theorem spi_ratio_zero_panics :
    computeMbr 1000000 2000000 = Except.error Abort.unreachableState ∧
    (spiInit (Config.new MODE_0) 2000000 (some 1000000)).2 =
      some Abort.unreachableState :=
  ⟨rfl, rfl⟩

/-- C3 (amended): for every configuration and requested frequency, when the
kernel-clock query returns `none` the construction diverges by the
`kernel clock not running` panic immediately after the two initial writes —
it does not silently substitute a default frequency and does not complete;
but it aborts rather than returning a configuration-error result (the
constructor returns `Self`, with no error channel). -/
theorem spi_missing_kernel_clock_panics (config : Config) (freq : ℕ) :
    spiInit config freq none =
      ([RegWrite.apbenrEnable, RegWrite.cfg2SsoeDisabled],
        some Abort.kernelClockNotRunning) :=
  rfl

/-- Counterexample to C3 as stated: with the kernel clock disabled the
construction run carries the `kernel clock not running` panic (a process
abort), i.e. it does not terminate normally with any result value, so no
configuration-error result is returned to the caller. -/
theorem spi_missing_kernel_clock_counterexample :
    (spiInit (Config.new MODE_0) 1000000 none).2 =
      some Abort.kernelClockNotRunning ∧
    (spiInit (Config.new MODE_0) 1000000 none).2 ≠ none :=
  ⟨rfl, by decide⟩

/-- C4: `read` and `send` check the status flags in the fixed priority
order overrun, mode fault, CRC error, before consulting data availability:
overrun set yields `Overrun` (even when CRC error is set simultaneously —
`Crc` is never returned while `ovr` is set), mode fault is reported next,
CRC error last, and whenever any error flag is set the call returns that
error regardless of the data-availability flags. -/
theorem transfer_error_priority {T : Type} (sr : StatusFlags) (rxdr word : T) :
    (sr.ovr = true →
      (fullDuplexRead sr rxdr).1 = NbResult.err Error.Overrun ∧
      (fullDuplexSend sr word).1 = NbResult.err Error.Overrun) ∧
    (sr.ovr = false → sr.modf = true →
      (fullDuplexRead sr rxdr).1 = NbResult.err Error.ModeFault ∧
      (fullDuplexSend sr word).1 = NbResult.err Error.ModeFault) ∧
    (sr.ovr = false → sr.modf = false → sr.crce = true →
      (fullDuplexRead sr rxdr).1 = NbResult.err Error.Crc ∧
      (fullDuplexSend sr word).1 = NbResult.err Error.Crc) ∧
    ((sr.ovr || sr.modf || sr.crce) = true →
      ∃ e : Error, (fullDuplexRead sr rxdr).1 = NbResult.err e ∧
        (fullDuplexSend sr word).1 = NbResult.err e) := by
  obtain ⟨o, m, c, rx, tx⟩ := sr
  cases o <;> cases m <;> cases c <;>
    simp [fullDuplexRead, fullDuplexSend]

/-- Witness for C4: with overrun and CRC error both set and data ready in
both directions, `read` and `send` both report `Overrun`. -/
theorem transfer_error_priority_witness :
    (fullDuplexRead ⟨true, false, true, true, true⟩ (0 : ℕ)).1 =
      NbResult.err Error.Overrun ∧
    (fullDuplexSend ⟨true, false, true, true, true⟩ (0 : ℕ)).1 =
      NbResult.err Error.Overrun :=
  (transfer_error_priority ⟨true, false, true, true, true⟩ 0 0).1 rfl

/-- C5: `send` writes the CSTART strobe exactly once when and only when the
word is accepted — acceptance being transmit-space available with no error
flag set — and writes no strobe on an error or would-block outcome. -/
theorem send_cstart_iff_accepted {T : Type} (sr : StatusFlags) (word : T) :
    ((fullDuplexSend sr word).2.cstartWrites = 1 ↔
      (fullDuplexSend sr word).1 = NbResult.ok ()) ∧
    ((fullDuplexSend sr word).1 ≠ NbResult.ok () →
      (fullDuplexSend sr word).2.cstartWrites = 0) ∧
    ((fullDuplexSend sr word).1 = NbResult.ok () ↔
      sr.ovr = false ∧ sr.modf = false ∧ sr.crce = false ∧ sr.txp = true) := by
  obtain ⟨o, m, c, rx, tx⟩ := sr
  cases o <;> cases m <;> cases c <;> cases tx <;>
    simp [fullDuplexSend]

/-- Witness for C5: on a would-block outcome (no flags set) no CSTART
strobe is written. -/
theorem send_cstart_witness :
    (fullDuplexSend ⟨false, false, false, false, false⟩ (0 : ℕ)).2.cstartWrites = 0 :=
  (send_cstart_iff_accepted ⟨false, false, false, false, false⟩ 0).2.1 (by decide)

/-- Counterexample to C6 as stated: at `d = 2^32` seconds and `F = 1` Hz
the truncated product `⌊d·F⌋ = 2^32` is above 15, yet the programmed count
is not 15: the saturating `f32 as u32` cast yields `u32::MAX` and the
subsequent `delay + 1` overflows `u32`, so the computation diverges (debug
panic; a release build wraps to 0 and programs 0 cycles). -/
theorem cs_delay_overflow_counterexample :
    (15 : ℤ) < ⌊(4294967296 : ℚ) * ((1 : ℕ) : ℚ)⌋ ∧
    cycleDelay 4294967296 1 = Except.error Abort.u32Overflow ∧
    cycleDelay 4294967296 1 ≠ Except.ok 15 := by
  have h : cycleDelay 4294967296 1 = Except.error Abort.u32Overflow := by
    norm_num [cycleDelay, u32CheckedAdd1, u32Max]
  refine ⟨by norm_num, h, ?_⟩
  rw [h]
  exact fun hh => nomatch hh

/-- C6 (amended): for requested CS delay `d ≥ 0` seconds and frequency `F`,
whenever the truncated product `⌊d·F⌋` is below `u32::MAX` the programmed
cycle count is `⌊d·F⌋`, incremented by exactly one when `d > 0`, then
clamped to `[0, 15]`; in particular `d = 0` gives 0 cycles, a positive `d`
whose truncated product is 0 gives 1 cycle, and a computed value above 15
gives 15 when below the overflow bound.  But for `d > 0` with
`⌊d·F⌋ ≥ u32::MAX` the saturating cast yields `u32::MAX` and the `u32`
increment overflows, so the computation diverges instead of clamping to 15
(see `cs_delay_overflow_counterexample`).  (The source computes the
product in `f32`; the embedding models that arithmetic as exact.) -/
theorem cs_delay_cycles (d : ℚ) (F : ℕ) (hd : 0 ≤ d) :
    (⌊d * (F : ℚ)⌋ < 4294967295 →
      ∃ c : ℕ, cycleDelay d F = Except.ok c ∧
        (c : ℤ) = min (⌊d * (F : ℚ)⌋ + if 0 < d then 1 else 0) 15) ∧
    (d = 0 → cycleDelay d F = Except.ok 0) ∧
    (0 < d → ⌊d * (F : ℚ)⌋ = 0 → cycleDelay d F = Except.ok 1) ∧
    (15 < ⌊d * (F : ℚ)⌋ + (if 0 < d then 1 else 0) →
      ⌊d * (F : ℚ)⌋ < 4294967295 → cycleDelay d F = Except.ok 15) ∧
    (0 < d → (4294967295 : ℤ) ≤ ⌊d * (F : ℚ)⌋ →
      cycleDelay d F = Except.error Abort.u32Overflow) := by
  have h0 : (0 : ℤ) ≤ ⌊d * (F : ℚ)⌋ :=
    Int.floor_nonneg.mpr (mul_nonneg hd (Nat.cast_nonneg F))
  have hA : ⌊d * (F : ℚ)⌋ < 4294967295 →
      ∃ c : ℕ, cycleDelay d F = Except.ok c ∧
        (c : ℤ) = min (⌊d * (F : ℚ)⌋ + if 0 < d then 1 else 0) 15 := by
    intro hlt
    have hmin : min ((⌊d * (F : ℚ)⌋).toNat) u32Max = (⌊d * (F : ℚ)⌋).toNat := by
      unfold u32Max
      omega
    simp only [cycleDelay, hmin]
    by_cases h1 : 0 < d
    · rw [if_pos h1]
      unfold u32CheckedAdd1
      rw [if_pos (by unfold u32Max; omega)]
      refine ⟨_, rfl, ?_⟩
      rw [if_pos h1]
      split_ifs with hc <;> omega
    · rw [if_neg h1]
      refine ⟨_, rfl, ?_⟩
      rw [if_neg h1]
      split_ifs with hc <;> omega
  refine ⟨hA, ?_, ?_, ?_, ?_⟩
  · intro h
    subst h
    norm_num [cycleDelay, u32CheckedAdd1, u32Max]
  · intro h1 h2
    norm_num [cycleDelay, u32CheckedAdd1, u32Max, h1, h2]
  · intro hgt hlt
    obtain ⟨c, hc, hcv⟩ := hA hlt
    rw [hc]
    by_cases h1 : 0 < d
    · rw [if_pos h1] at hcv hgt
      congr 1
      omega
    · rw [if_neg h1] at hcv hgt
      congr 1
      omega
  · intro h1 hge
    have hmin : min ((⌊d * (F : ℚ)⌋).toNat) u32Max = u32Max := by
      unfold u32Max
      omega
    simp only [cycleDelay, hmin]
    rw [if_pos h1]
    unfold u32CheckedAdd1
    rw [if_neg (by unfold u32Max; omega)]

/-- Witness for C6: a zero CS delay programs zero cycles. -/
theorem cs_delay_cycles_witness : cycleDelay 0 5 = Except.ok 0 :=
  (cs_delay_cycles 0 5 le_rfl).2.1 rfl

/-- Helper for C7: every single `listen`/`unlisten` call keeps the four
error-group enable flags equal to one another. -/
theorem ierOp_apply_uniform (op : IerOp) (i : Ier)
    (h : errorGroupUniform i) : errorGroupUniform (op.apply i) := by
  cases op with
  | listen e => cases e <;> first | exact ⟨rfl, rfl, rfl⟩ | exact h
  | unlisten e => cases e <;> first | exact ⟨rfl, rfl, rfl⟩ | exact h

/-- C7: `listen(Error)` sets and `unlisten(Error)` clears the underrun,
overrun, CRC-error and mode-fault interrupt-enable flags together as one
unit, and no sequence of `listen`/`unlisten` operations starting from a
state with the four flags equal reaches a state where only some of them
are enabled. -/
theorem error_group_atomic (i : Ier) (ops : List IerOp) :
    ((listen Event.Error i).udrie = true ∧ (listen Event.Error i).ovrie = true ∧
      (listen Event.Error i).crceie = true ∧ (listen Event.Error i).modfie = true) ∧
    ((unlisten Event.Error i).udrie = false ∧ (unlisten Event.Error i).ovrie = false ∧
      (unlisten Event.Error i).crceie = false ∧ (unlisten Event.Error i).modfie = false) ∧
    (errorGroupUniform i → errorGroupUniform (applyOps ops i)) := by
  have H : ∀ (ops : List IerOp) (j : Ier),
      errorGroupUniform j → errorGroupUniform (applyOps ops j) := by
    intro ops
    induction ops with
    | nil => intro j h; exact h
    | cons op rest ih => intro j h; exact ih _ (ierOp_apply_uniform op j h)
  exact ⟨⟨rfl, rfl, rfl, rfl⟩, ⟨rfl, rfl, rfl, rfl⟩, H ops i⟩

/-- Witness for C7: from the reset state (all masked), a `listen(Rxp)`
followed by an `unlisten(Error)` leaves the error group uniform. -/
theorem error_group_atomic_witness :
    errorGroupUniform
      (applyOps [IerOp.listen Event.Rxp, IerOp.unlisten Event.Error]
        ⟨false, false, false, false, false, false, false⟩) :=
  (error_group_atomic ⟨false, false, false, false, false, false, false⟩
    [IerOp.listen Event.Rxp, IerOp.unlisten Event.Error]).2.2 (by decide)

/-- C8: whenever initialization reaches the data-size write (kernel clock
present, divisor computed), the `dsize` field is written as
`frame_size − 1` with no validation that `frame_size ≥ 1`: for
`frame_size ≥ 1` the `cfg1` write carries `frame_size − 1` (whether or not
the later cycle-delay block completes), and for the boundary value
`frame_size = 0` the unsigned 8-bit subtraction underflows and the
computation diverges (`Abort.u8Underflow`). -/
theorem frame_size_dsize (config : Config) (freq ck : ℕ) (m : MBR)
    (hm : computeMbr ck freq = Except.ok m) :
    (1 ≤ config.frame_size →
      RegWrite.cfg1 m (config.frame_size - 1) ∈ (spiInit config freq (some ck)).1) ∧
    (config.frame_size = 0 →
      (spiInit config freq (some ck)).2 = some Abort.u8Underflow) := by
  constructor
  · intro h1
    have hds : dsizeField config.frame_size = Except.ok (config.frame_size - 1) := by
      unfold dsizeField
      rw [if_neg (by omega)]
    cases hcd : cycleDelay config.cs_delay freq with
    | error a => simp [spiInit, hm, hds, hcd]
    | ok cd => simp [spiInit, hm, hds, hcd]
  · intro h0
    have hds : dsizeField config.frame_size = Except.error Abort.u8Underflow := by
      unfold dsizeField
      rw [if_pos h0]
    simp [spiInit, hm, hds]

/-- Witness for C8: the default 8-bit configuration programs `dsize = 7`,
and the same configuration with `frame_size = 0` diverges by underflow. -/
theorem frame_size_dsize_witness :
    RegWrite.cfg1 MBR.DIV2 7 ∈ (spiInit (Config.new MODE_0) 1 (some 1)).1 ∧
    (spiInit ⟨MODE_0, false, 0, 0, false, CommunicationMode.FullDuplex, 0⟩ 1
      (some 1)).2 = some Abort.u8Underflow :=
  ⟨(frame_size_dsize (Config.new MODE_0) 1 1 MBR.DIV2 rfl).1 (by decide),
    (frame_size_dsize ⟨MODE_0, false, 0, 0, false, CommunicationMode.FullDuplex, 0⟩
      1 1 MBR.DIV2 rfl).2 rfl⟩

/-- C9: the pin-checked constructor `spi` and the constructor
`spi_unchecked` perform exactly the same register-write sequence and return
equal results for every pin tuple, configuration, frequency and clock
state: both delegate to the same underlying constructor `spiInit`, the pin
argument having no runtime effect. -/
theorem spi_pins_no_runtime_effect (PINS : Type) (pins : PINS) (config : Config)
    (freq : ℕ) (kernelClk : Option ℕ) :
    SpiExt.spi pins config freq kernelClk =
      SpiExt.spi_unchecked config freq kernelClk ∧
    SpiExt.spi pins config freq kernelClk = spiInit config freq kernelClk :=
  ⟨rfl, rfl⟩

/-- C10: every `read`/`send` call performs exactly one status-register
read; on any non-success outcome (error or would-block) it performs no
data-register access and no register write; the receive-data read happens
exactly on the read success path, and the transmit-data write plus CSTART
strobe happen exactly on the send success path. -/
theorem transfer_effects {T : Type} (sr : StatusFlags) (rxdr word : T) :
    ((fullDuplexRead sr rxdr).2.srReads = 1 ∧
      (fullDuplexSend sr word).2.srReads = 1) ∧
    ((∀ t : T, (fullDuplexRead sr rxdr).1 ≠ NbResult.ok t) →
      (fullDuplexRead sr rxdr).2 = ⟨1, 0, 0, 0⟩) ∧
    ((fullDuplexSend sr word).1 ≠ NbResult.ok () →
      (fullDuplexSend sr word).2 = ⟨1, 0, 0, 0⟩) ∧
    (∀ t : T, (fullDuplexRead sr rxdr).1 = NbResult.ok t →
      (fullDuplexRead sr rxdr).2 = ⟨1, 1, 0, 0⟩) ∧
    ((fullDuplexSend sr word).1 = NbResult.ok () →
      (fullDuplexSend sr word).2 = ⟨1, 0, 1, 1⟩) := by
  obtain ⟨o, m, c, rx, tx⟩ := sr
  cases o <;> cases m <;> cases c <;> cases rx <;> cases tx <;>
    simp [fullDuplexRead, fullDuplexSend]

/-- Witness for C10: on a would-block outcome both calls touched nothing
but the single status-register read. -/
theorem transfer_effects_witness :
    (fullDuplexRead ⟨false, false, false, false, false⟩ (0 : ℕ)).2 = ⟨1, 0, 0, 0⟩ ∧
    (fullDuplexSend ⟨false, false, false, false, false⟩ (0 : ℕ)).2 = ⟨1, 0, 0, 0⟩ :=
  ⟨(transfer_effects ⟨false, false, false, false, false⟩ (0 : ℕ) 0).2.1
      (fun t h => nomatch h),
    (transfer_effects ⟨false, false, false, false, false⟩ (0 : ℕ) 0).2.2.1
      (by decide)⟩

end Spi
